import Mathlib

/-
Verification development for the clk-idtxp frequency-synthesizer driver
(src/clk_idtxp.c).  The driver computes PLL divider settings for a requested
output frequency, encodes them into 8-bit register bitfields, and sequences
the register writes that apply them.  The definitions below are a shallow
embedding of the relevant C functions: machine integers are modelled as Nat
with explicit truncation (mod 2^8, 2^32, 2^64) exactly where the C types
truncate, C bool fields become Bool, fallible register-port operations are
modelled by an explicit Port record of outcomes, and the unbounded divider
search loop is modelled with explicit fuel (the value none / LoopOut.hang
means the C loop does not terminate).
-/

namespace ClkIdtxp

/-- Limits from the constant table of clk_idtxp.c. -/
def DIVO_MIN : Nat := 4

/-- Upper bound of the output divider. -/
def DIVO_MAX : Nat := 511

/-- Lower bound of the integer feedback divider. -/
def DIVN_MIN : Nat := 41

/-- Upper bound of the integer feedback divider. -/
def DIVN_MAX : Nat := 216

/-- Lower bound of the VCO frequency in Hz. -/
def FVCO_MIN : Nat := 6860000000

/-- Upper bound of the VCO frequency in Hz. -/
def FVCO_MAX : Nat := 8650000000

/-- Minimum requestable output frequency in Hz. -/
def IDTXP_MIN_FREQ : Nat := 16000000

/-- Maximum requestable output frequency in Hz. -/
def IDTXP_MAX_FREQ : Nat := 2100000000

/-- Value of the 32-bit all-ones word, used for the C complement of an
unsigned int. -/
def U32_ONES : Nat := 4294967295

/-- Transcription of bit_to_shift: count of zero bits to the right of the
lowest set bit of a 32-bit mask, computed by isolating the lowest set bit
with mask and= not mask + 1 (32-bit two-complement arithmetic) and then a
branch cascade.  For mask = 0 the C code returns 32. -/
def bit_to_shift (mask : Nat) : Nat :=
  let m0 := mask % 4294967296
  let m := m0 &&& (((U32_ONES ^^^ m0) + 1) % 4294967296)
  let c := 32
  let c := if m ≠ 0 then c - 1 else c
  let c := if m &&& 0x0000FFFF ≠ 0 then c - 16 else c
  let c := if m &&& 0x00FF00FF ≠ 0 then c - 8 else c
  let c := if m &&& 0x0F0F0F0F ≠ 0 then c - 4 else c
  let c := if m &&& 0x33333333 ≠ 0 then c - 2 else c
  let c := if m &&& 0x55555555 ≠ 0 then c - 1 else c
  c

/-- Transcription of set_to_reg: store val into the bitfield of the byte reg
selected by mask, shifting val up to the lowest set bit of the mask.  The C
code computes in unsigned int width and truncates on the store to the u8
register byte; it does not mask val to the field width, so an oversized val
spills into neighbouring bits. -/
def set_to_reg (reg val mask : Nat) : Nat :=
  ((reg &&& (U32_ONES ^^^ (mask % 4294967296))) |||
    ((val <<< bit_to_shift mask) % 4294967296)) % 256

/-- Transcription of get_from_reg: extract and right-align the bits of the
byte reg selected by mask; the result is stored through a u8 pointer. -/
def get_from_reg (reg mask : Nat) : Nat :=
  ((reg &&& (mask % 4294967296)) >>> bit_to_shift mask) % 256

/-- XO oscillator trim fields of struct clk_xo_setting that
idtxp_calc_xo_settings assigns (the remaining fields of the C struct are
never touched by the computations the claims are about). -/
structure XoSettings where
  dblr_dis : Bool
  gm : Nat
  cap_x1 : Nat
  ampslice : Nat
  cap_x2 : Nat
  ot_dis : Bool
  ot_res : Nat
deriving Repr, DecidableEq

/-- Fields of struct clk_idtxp used by the divider computation, the register
codec and the rate-change state machine.  Widths in the C struct: divo and
divnint are u16, divnfrac is u32, fvco is u64, req_freq and act_freq are
u32, the four sub-byte fields are u8. -/
structure ClkIdtxpData where
  fxtal : Nat
  fvco : Nat
  divo : Nat
  divnint : Nat
  divnfrac : Nat
  req_freq : Nat
  act_freq : Nat
  min_freq : Nat
  max_freq : Nat
  icp_offst_en : Bool
  icp_value : Nat
  pll_mode : Bool
  divo_8 : Nat
  divnint_8_7 : Nat
  divnfrac_15_8 : Nat
  divnfrac_23_16 : Nat
  xo : XoSettings
deriving Repr, DecidableEq

/-- All-zero XO settings, the state of the kzalloc-ed device structure
before any computation runs. -/
def xo0 : XoSettings :=
  { dblr_dis := false, gm := 0, cap_x1 := 0, ampslice := 0, cap_x2 := 0,
    ot_dis := false, ot_res := 0 }

/-- All-zero device data, the state of the kzalloc-ed device structure. -/
def data0 : ClkIdtxpData :=
  { fxtal := 0, fvco := 0, divo := 0, divnint := 0, divnfrac := 0,
    req_freq := 0, act_freq := 0, min_freq := 0, max_freq := 0,
    icp_offst_en := false, icp_value := 0, pll_mode := false,
    divo_8 := 0, divnint_8_7 := 0, divnfrac_15_8 := 0, divnfrac_23_16 := 0,
    xo := xo0 }

/-- Transcription of update_divis_regs: derive the four sub-byte register
fields.  Note the source computes divnint_8_7 from divo (not divnint) with
the mask 0x2 shifted left by 7, that is from bit 8 of divo. -/
def update_divis_regs (data : ClkIdtxpData) : ClkIdtxpData :=
  { data with
    divo_8 := (data.divo &&& (0x1 <<< 8)) >>> 8,
    divnint_8_7 := (data.divo &&& (0x2 <<< 7)) >>> 7,
    divnfrac_15_8 := (data.divnfrac &&& (0xFF <<< 8)) >>> 8,
    divnfrac_23_16 := (data.divnfrac &&& (0xFF <<< 16)) >>> 16 }

/-- Transcription of idtxp_calc_xo_settings: pick the XO trim bundle for the
crystal frequency band, or return -EINVAL (-22) leaving the settings
untouched when fxtal is outside the three supported bands. -/
def idtxp_calc_xo_settings (data : ClkIdtxpData) : ClkIdtxpData × Int :=
  if 40000000 ≤ data.fxtal ∧ data.fxtal ≤ 80000000 then
    let xo : XoSettings :=
      { dblr_dis := false, gm := 0x2, cap_x1 := 0x3C, ampslice := 0x1,
        cap_x2 := 0x2, ot_dis := true, ot_res := 0x0 }
    ({ data with xo := xo }, 0)
  else if 100000000 ≤ data.fxtal ∧ data.fxtal < 140000000 then
    let xo : XoSettings :=
      { dblr_dis := true, gm := 0x2, cap_x1 := 0x15, ampslice := 0x0C,
        cap_x2 := 0x5, ot_dis := false, ot_res := 0x5 }
    ({ data with xo := xo }, 0)
  else if 140000000 ≤ data.fxtal ∧ data.fxtal ≤ 166000000 then
    let xo : XoSettings :=
      { dblr_dis := true, gm := 0x3, cap_x1 := 0x15, ampslice := 0x0C,
        cap_x2 := 0x5, ot_dis := false, ot_res := 0x3 }
    ({ data with xo := xo }, 0)
  else
    (data, -22)

/-- Transcription of idtxp_calc_charge_pump: map the VCO frequency to the
charge-pump code by the four ranges of the source.  The C function always
returns 0, so it is modelled as a pure state update. -/
def idtxp_calc_charge_pump (data : ClkIdtxpData) : ClkIdtxpData :=
  if data.fvco < 7000000000 then
    { data with icp_value := 5 }
  else if 7000000000 ≤ data.fvco ∧ data.fvco < 7400000000 then
    { data with icp_value := 4 }
  else if 7400000000 ≤ data.fvco ∧ data.fvco < 7800000000 then
    { data with icp_value := 3 }
  else
    { data with icp_value := 2 }

/-- Outcome of the integer-mode divider search loop of idtxp_calc_divs:
either no exact solution (fall through to fractional mode), or an exact
integer solution at the given output divider, or non-termination of the C
while loop (modelled as running out of fuel). -/
inductive LoopOut where
  | hang : LoopOut
  | frac : LoopOut
  | intSol (divo : Nat) : LoopOut
deriving Repr, DecidableEq

/-- Transcription of the while loop of idtxp_calc_divs (one fuel unit per
iteration of the C loop).  When divnint falls below DIVN_MIN the source
executes continue without incrementing divo, so the loop state repeats
forever; exhausting the fuel therefore witnesses non-termination. -/
def calcDivsLoop (req pfd : Nat) : Nat → Nat → LoopOut
  | _divo, 0 => LoopOut.hang
  | divo, fuel + 1 =>
    if divo < DIVO_MAX then
      let fvco := req * divo
      if fvco > FVCO_MAX then LoopOut.frac
      else
        let divnint := fvco / pfd
        if divnint < DIVN_MIN then calcDivsLoop req pfd divo fuel
        else if divnint > DIVN_MAX then LoopOut.frac
        else if fvco % pfd = 0 then LoopOut.intSol divo
        else calcDivsLoop req pfd (divo + 1) fuel
    else LoopOut.frac

/-- Transcription of idtxp_calc_divs.  The phase-detector frequency is
fxtal times 1 or 2 according to the doubler-disable trim; the initial
output-divider guess is 1 + FVCO_MIN / req_freq; the integer-mode search
runs the loop above; on fall-through, fractional mode recomputes the
dividers at the initial guess and applies the two rounding steps of the
source.  The result is none exactly when the C loop does not terminate. -/
def idtxp_calc_divs (data : ClkIdtxpData) : Option ClkIdtxpData :=
  let pfd := data.fxtal * (if data.xo.dblr_dis then 1 else 2)
  let divo0 := 1 + FVCO_MIN / data.req_freq
  match calcDivsLoop data.req_freq pfd divo0 520 with
  | LoopOut.hang => none
  | LoopOut.intSol divo =>
    let d : ClkIdtxpData :=
      { data with
        divnfrac := 0, divo := divo, fvco := data.req_freq * divo,
        divnint := data.req_freq * divo / pfd }
    some (update_divis_regs d)
  | LoopOut.frac =>
    let divo := divo0
    let fvco := data.req_freq * divo
    let divnint := fvco / pfd
    let rem := fvco % pfd
    let divnfrac := (rem <<< 24) / pfd
    let rem := (rem <<< 24) % pfd
    let divnfrac := if rem * 10 / pfd ≥ 5 then divnfrac + 1 else divnfrac
    let divnint := if (divnfrac * 10) >>> 24 ≥ 5 then divnint + 1 else divnint
    let d : ClkIdtxpData :=
      { data with
        divo := divo, fvco := fvco, divnint := divnint,
        divnfrac := divnfrac }
    some (update_divis_regs d)

/-- The six divider/ICP register bytes at addresses 0x10 to 0x15. -/
structure RegBytes where
  r0 : Nat
  r1 : Nat
  r2 : Nat
  r3 : Nat
  r4 : Nat
  r5 : Nat
deriving Repr, DecidableEq

/-- All-zero register block. -/
def regBytes0 : RegBytes :=
  { r0 := 0, r1 := 0, r2 := 0, r3 := 0, r4 := 0, r5 := 0 }

/-- Byte-packing step of idtxp_write_divs_settings: starting from the six
bytes obtained by the bulk read (buf), refresh the sub-byte fields with
update_divis_regs and pack all divider/ICP fields into the bytes with
set_to_reg, with the u8 casts of the source.  Returns the packed bytes and
the refreshed device data. -/
def idtxp_write_divs_pack (data : ClkIdtxpData) (buf : RegBytes) :
    RegBytes × ClkIdtxpData :=
  let data := update_divis_regs data
  let r0 := set_to_reg buf.r0 (data.divo % 256) 0xFF
  let r1 := set_to_reg buf.r1 data.divo_8 0x80
  let r1 := set_to_reg r1 (data.divnint % 256) 0x7F
  let r2 := set_to_reg buf.r2 (if data.icp_offst_en then 1 else 0) 0x40
  let r2 := set_to_reg r2 data.divnint_8_7 0x30
  let r2 := set_to_reg r2 data.icp_value 0x0E
  let r2 := set_to_reg r2 (if data.pll_mode then 1 else 0) 0x01
  let r3 := set_to_reg buf.r3 (data.divnfrac % 256) 0xFF
  let r4 := set_to_reg buf.r4 data.divnfrac_15_8 0xFF
  let r5 := set_to_reg buf.r5 data.divnfrac_23_16 0xFF
  ({ r0 := r0, r1 := r1, r2 := r2, r3 := r3, r4 := r4, r5 := r5 }, data)

/-- Transcription of idtxp_get_divs_and_icp after its bulk read: decode the
six register bytes into the device fields.  The source stores several
multi-byte fields through a u8 pointer, so only the low byte of the previous
divo / divnint / divnfrac value is replaced and the upper bytes of the
previous value survive into the bitwise-or reassembly; divnint_8_7 is or-ed
into divnint without any shift, exactly as in the source. -/
def idtxp_get_divs_and_icp (data : ClkIdtxpData) (r : RegBytes) :
    ClkIdtxpData :=
  let divo := (data.divo &&& 0xFF00) ||| get_from_reg r.r0 0xFF
  let divo_8 := get_from_reg r.r1 0x80
  let divnint := (data.divnint &&& 0xFF00) ||| get_from_reg r.r1 0x7F
  let icp_offst_en := get_from_reg r.r2 0x40 != 0
  let divnint_8_7 := get_from_reg r.r2 0x30
  let icp_value := get_from_reg r.r2 0x0E
  let pll_mode := get_from_reg r.r2 0x01 != 0
  let divnfrac := (data.divnfrac &&& 0xFFFFFF00) ||| get_from_reg r.r3 0xFF
  let divnfrac_15_8 := get_from_reg r.r4 0xFF
  let divnfrac_23_16 := get_from_reg r.r5 0xFF
  let divo := divo ||| (divo_8 <<< 8)
  let divnint := divnint ||| divnint_8_7
  let divnfrac := divnfrac ||| (divnfrac_15_8 <<< 8) ||| (divnfrac_23_16 <<< 16)
  { data with
    divo := divo, divo_8 := divo_8, divnint := divnint,
    icp_offst_en := icp_offst_en, divnint_8_7 := divnint_8_7,
    icp_value := icp_value, pll_mode := pll_mode, divnfrac := divnfrac,
    divnfrac_15_8 := divnfrac_15_8, divnfrac_23_16 := divnfrac_23_16 }

/-- Outcomes of the register-port transactions during one rate change,
standing in for the external regmap collaborator: whether the bulk read of
the divider block succeeds and the bytes it returns, the uninitialized
stack-buffer contents seen when it fails, and whether the batch write, the
five setup writes and the two 0x62 trigger writes succeed. -/
structure Port where
  divs_read_ok : Bool
  divs_read_bytes : RegBytes
  stale_bytes : RegBytes
  multi_write_ok : Bool
  setup_write_ok : Bool
  freq_chg_write_ok : Bool
deriving Repr, DecidableEq

/-- Transcription of idtxp_write_divs_settings: the source assigns the error
of the initial regmap_bulk_read to err but never tests it, so on a failed
read it packs into whatever the stack buffer held and carries on; only the
error of the final regmap_multi_reg_write is returned. -/
def idtxp_write_divs_settings (data : ClkIdtxpData) (port : Port) :
    ClkIdtxpData × Int :=
  let buf := if port.divs_read_ok then port.divs_read_bytes
             else port.stale_bytes
  let pk := idtxp_write_divs_pack data buf
  if port.multi_write_ok then (pk.2, 0) else (pk.2, -5)

/-- Transcription of idtxp_setup: five checked writes to the control
register 0x60 (values 0x00, 0x20, 0x00, 0x01, 0x00). -/
def idtxp_setup (port : Port) : Int :=
  if port.setup_write_ok then 0 else -5

/-- Transcription of idtxp_large_frequency_change: compute dividers and
charge pump, write the divider registers, run the setup sequence, then
write 0x01 and 0x00 to the 0x62 trigger register discarding both return
values, and finally record act_freq := req_freq.  The result is none when
idtxp_calc_divs does not terminate. -/
def idtxp_large_frequency_change (data : ClkIdtxpData) (port : Port) :
    Option (ClkIdtxpData × Int) :=
  match idtxp_calc_divs data with
  | none => none
  | some data =>
    let data := idtxp_calc_charge_pump data
    let ws := idtxp_write_divs_settings data port
    if ws.2 ≠ 0 then some ws
    else if idtxp_setup port ≠ 0 then some (ws.1, idtxp_setup port)
    else some ({ ws.1 with act_freq := ws.1.req_freq }, 0)

/-- Transcription of idtxp_small_frequency_change: identical to the large
change except that the (discarded) trigger writes are 0x02 then 0x00,
committing without PLL relock. -/
def idtxp_small_frequency_change (data : ClkIdtxpData) (port : Port) :
    Option (ClkIdtxpData × Int) :=
  match idtxp_calc_divs data with
  | none => none
  | some data =>
    let data := idtxp_calc_charge_pump data
    let ws := idtxp_write_divs_settings data port
    if ws.2 ≠ 0 then some ws
    else if idtxp_setup port ≠ 0 then some (ws.1, idtxp_setup port)
    else some ({ ws.1 with act_freq := ws.1.req_freq }, 0)

/-- Subtraction of two unsigned-long (64-bit) values with wraparound, as in
the C expression rate - act_freq. -/
def u64_sub (a b : Nat) : Nat :=
  (a + (18446744073709551616 - b % 18446744073709551616)) %
    18446744073709551616

/-- The kernel abs() macro applied to an unsigned long: the value is
reinterpreted as a signed long and negated when negative. -/
def kernel_abs64 (x : Nat) : Nat :=
  if x % 18446744073709551616 < 9223372036854775808 then
    x % 18446744073709551616
  else
    (18446744073709551616 - x % 18446744073709551616) % 18446744073709551616

/-- The change-magnitude expression of idtxp_set_rate:
div64_u64(abs(rate - act_freq) * 10000LL, act_freq), with the 64-bit
wraparound of the unsigned subtraction and the kernel abs() reinterpretation
made explicit. -/
def idtxp_relative (rate act_freq : Nat) : Nat :=
  (kernel_abs64 (u64_sub rate act_freq) * 10000) % 18446744073709551616 /
    act_freq

/-- Transcription of idtxp_set_rate: reject a rate outside
min_freq..max_freq with -EINVAL and no state change; otherwise store the
requested rate and dispatch on idtxp_relative rate act_freq < 5 to the
small or large frequency-change path. -/
def idtxp_set_rate (data : ClkIdtxpData) (rate : Nat) (port : Port) :
    Option (ClkIdtxpData × Int) :=
  if rate < data.min_freq ∨ rate > data.max_freq then some (data, -22)
  else
    let data := { data with req_freq := rate }
    if idtxp_relative rate data.act_freq < 5 then
      idtxp_small_frequency_change data port
    else
      idtxp_large_frequency_change data port

/-- Transcription of idtxp_recalc_rate: the source returns req_freq (the
last requested frequency), not act_freq. -/
def idtxp_recalc_rate (data : ClkIdtxpData) : Nat :=
  data.req_freq

/-- The XO-configuration step of idtxp_probe (source lines 1131-1132): the
probe calls idtxp_calc_xo_settings, discards its return value, calls
idtxp_write_xo_settings on the resulting state, and continues; this step
never makes the probe fail, so its error contribution is the constant 0. -/
def idtxp_probe_xo_step (data : ClkIdtxpData) : ClkIdtxpData × Int :=
  let data := (idtxp_calc_xo_settings data).1
  (data, 0)

/-- Device data as idtxp_probe initializes it before the XO computation:
crystal frequency and an initial requested rate from the device tree,
act_freq preset to the minimum frequency, bounds set to the device range. -/
def probe_base (fxtal req : Nat) : ClkIdtxpData :=
  { data0 with
    fxtal := fxtal, req_freq := req, act_freq := IDTXP_MIN_FREQ,
    min_freq := IDTXP_MIN_FREQ, max_freq := IDTXP_MAX_FREQ }

/-- Device data after the probe has run idtxp_calc_xo_settings, so the
doubler-disable trim corresponding to the crystal band is in place. -/
def probe_data (fxtal req : Nat) : ClkIdtxpData :=
  (idtxp_calc_xo_settings (probe_base fxtal req)).1

/-- Divider set used to exercise the register round trip: all fields within
the section-3 bounds (output divider 4, feedback integer 128, fraction 0). -/
def dIn3 : ClkIdtxpData :=
  { data0 with divo := 4, divnint := 128, icp_value := 2 }

/-- Input exhibiting the update_divis_regs packing defect: feedback integer
128 has bit 7 set, output divider 4 has bit 8 clear. -/
def d4 : ClkIdtxpData :=
  { data0 with divo := 4, divnint := 128 }

/-- Port on which the batch write of the divider registers fails and every
other transaction succeeds. -/
def portBadWrite : Port :=
  { divs_read_ok := true, divs_read_bytes := regBytes0,
    stale_bytes := regBytes0, multi_write_ok := false,
    setup_write_ok := true, freq_chg_write_ok := true }

/-- Port on which the initial bulk read of the divider registers fails
(leaving arbitrary stack garbage in the buffer) and both trigger writes to
register 0x62 fail, while the batch write and setup writes succeed. -/
def portBadReadTrig : Port :=
  { divs_read_ok := false, divs_read_bytes := regBytes0,
    stale_bytes := { r0 := 0xAA, r1 := 0xBB, r2 := 0xCC, r3 := 0xDD,
                     r4 := 0xEE, r5 := 0x11 },
    multi_write_ok := true, setup_write_ok := true,
    freq_chg_write_ok := false }

/-- Device data with a 39 MHz reference, which lies outside all three
supported XO-trim bands. -/
def d39 : ClkIdtxpData :=
  { data0 with fxtal := 39000000 }

/-- C3: the claimed bit-for-bit round trip through the divider registers
fails on a DividerSet inside the section-3 bounds.  For output_divider 4 and
feedback_int 128 (bit 7 set, allowed since 128 lt 216), packing with
idtxp_write_divs_pack and unpacking with idtxp_get_divs_and_icp returns
output_divider 260 and feedback_int 0: set_to_reg ors the unmasked low byte
of feedback_int into register 0x11, clobbering the DIVO_8 bit; the
DIVN_INT_8_7 field is packed from bit 8 of output_divider instead of bits
8-7 of feedback_int; and unpacking ors the DIVN_INT_8_7 field into
feedback_int without the shift by 7. -/
theorem divs_pack_unpack_roundtrip_fails_eval :
    (idtxp_get_divs_and_icp dIn3 (idtxp_write_divs_pack dIn3 regBytes0).1).divo
        = 260 ∧
    (idtxp_get_divs_and_icp dIn3
        (idtxp_write_divs_pack dIn3 regBytes0).1).divnint = 0 ∧
    dIn3.divo = 4 ∧ dIn3.divnint = 128 ∧ dIn3.divnfrac = 0 ∧
    dIn3.divnint ≤ DIVN_MAX ∧ dIn3.divo ≤ DIVO_MAX := by
  decide

/-- C4: update_divis_regs does not compute divnint_8_7 as bits 8-7 of
divnint right-aligned.  On divo 4, divnint 128 the source stores
(divo and 0x100) shifted right by 7, that is 0, while bits 8-7 of divnint
right-aligned are 1. -/
theorem update_divis_regs_divnint_8_7_bug_eval :
    (update_divis_regs d4).divnint_8_7 = 0 ∧
    (d4.divnint >>> 7) &&& 0x3 = 1 ∧
    (update_divis_regs d4).divnint_8_7 ≠ (d4.divnint >>> 7) &&& 0x3 := by
  decide

/-- C5: idtxp_recalc_rate returns req_freq, not act_freq.  Starting from the
probe state (act_freq 16 MHz), a request for 100 MHz passes the range check,
stores req_freq = 100 MHz, and then fails in the divider-register batch
write, so act_freq stays 16 MHz; idtxp_recalc_rate on the resulting state
reports 100 MHz, a frequency that was never applied. -/
theorem recalc_rate_reports_req_freq_after_failed_change :
    (idtxp_set_rate (probe_data 49152000 16000000) 100000000
        portBadWrite).map
        (fun p => (idtxp_recalc_rate p.1, p.1.act_freq, p.2))
      = some (100000000, 16000000, -5) ∧
    (100000000 : Nat) ≠ 16000000 := by
  constructor
  · rfl
  · decide

/-- C7: idtxp_large_frequency_change swallows register-port failures.  With
the initial bulk read of idtxp_write_divs_settings failing (its error is
assigned but never tested) and both trigger writes to register 0x62 failing
(their return values are discarded), the transition still returns 0 and
sets act_freq to req_freq, instead of aborting with act_freq unchanged and
the failure surfaced. -/
theorem large_change_swallows_port_failures_eval :
    (idtxp_large_frequency_change
        { probe_data 49152000 16000000 with req_freq := 100000000 }
        portBadReadTrig).map (fun p => (p.2, p.1.act_freq))
      = some (0, 100000000) ∧
    portBadReadTrig.divs_read_ok = false ∧
    portBadReadTrig.freq_chg_write_ok = false := by
  refine ⟨by rfl, by decide, by decide⟩

/-- C8: idtxp_calc_charge_pump maps the VCO frequency to the charge-pump
code by four non-overlapping ranges with breakpoints 7.0, 7.4 and 7.8 GHz,
boundary values belonging to the higher-code range; in particular
7.0 GHz maps to 4 (not 5) and 7.8 GHz maps to 2 (not 3). -/
theorem calc_charge_pump_ranges (d : ClkIdtxpData) :
    (d.fvco < 7000000000 → (idtxp_calc_charge_pump d).icp_value = 5) ∧
    (7000000000 ≤ d.fvco → d.fvco < 7400000000 →
      (idtxp_calc_charge_pump d).icp_value = 4) ∧
    (7400000000 ≤ d.fvco → d.fvco < 7800000000 →
      (idtxp_calc_charge_pump d).icp_value = 3) ∧
    (7800000000 ≤ d.fvco → (idtxp_calc_charge_pump d).icp_value = 2) ∧
    (d.fvco = 7000000000 → (idtxp_calc_charge_pump d).icp_value = 4 ∧
      (idtxp_calc_charge_pump d).icp_value ≠ 5) ∧
    (d.fvco = 7800000000 → (idtxp_calc_charge_pump d).icp_value = 2 ∧
      (idtxp_calc_charge_pump d).icp_value ≠ 3) := by
  unfold idtxp_calc_charge_pump
  split_ifs with h1 h2 h3 <;>
    refine ⟨?_, ?_, ?_, ?_, ?_, ?_⟩ <;> simp <;> omega

/-- C8 witness: the boundary value 7.0 GHz concretely maps to code 4. -/
theorem calc_charge_pump_ranges_witness :
    (idtxp_calc_charge_pump { data0 with fvco := 7000000000 }).icp_value
      = 4 := by
  exact ((calc_charge_pump_ranges
    { data0 with fvco := 7000000000 }).2.2.2.2.1 rfl).1

/-- C10: a 39 MHz reference is outside all three XO-trim bands, so
idtxp_calc_xo_settings returns -EINVAL and mutates none of the XO trim
fields (the returned state equals the input state); but idtxp_probe
discards that error and continues successfully, so the instance does not
fail fast and stays usable, contrary to the claim. -/
theorem calc_xo_settings_unsupported_reference_ignored_by_probe :
    idtxp_calc_xo_settings d39 = (d39, -22) ∧
    idtxp_probe_xo_step d39 = (d39, 0) ∧
    ((-22 : Int) ≠ 0) := by
  decide

/-- C6: with an in-range request and a positive 32-bit act_freq, the
change-magnitude expression of idtxp_set_rate equals the truncating
integer quotient of the true absolute difference times 10000 by act_freq
(the unsigned 64-bit wraparound of rate minus act_freq is undone by the
kernel abs() reinterpretation, for requests below act_freq as well as
above it), so the small-frequency-change path is taken exactly when that
quotient is below 5. -/
theorem set_rate_small_change_classification (rate act : Nat)
    (h1 : IDTXP_MIN_FREQ ≤ rate) (h2 : rate ≤ IDTXP_MAX_FREQ)
    (h3 : 0 < act) (h4 : act < 4294967296) :
    idtxp_relative rate act = (max rate act - min rate act) * 10000 / act ∧
    (idtxp_relative rate act < 5 ↔
      (max rate act - min rate act) * 10000 / act < 5) := by
  have h5 : IDTXP_MIN_FREQ = 16000000 := rfl
  have h6 : IDTXP_MAX_FREQ = 2100000000 := rfl
  rw [h5] at h1
  rw [h6] at h2
  have hact : act % 18446744073709551616 = act := Nat.mod_eq_of_lt (by omega)
  have habs : kernel_abs64 (u64_sub rate act) = max rate act - min rate act := by
    unfold kernel_abs64 u64_sub
    rw [hact]
    rcases le_total rate act with hle | hle
    · rw [max_eq_right hle, min_eq_left hle]
      split_ifs <;> omega
    · rw [max_eq_left hle, min_eq_right hle]
      split_ifs <;> omega
  have hd : max rate act - min rate act ≤ rate + act := by
    rcases le_total rate act with hle | hle
    · rw [max_eq_right hle, min_eq_left hle]; omega
    · rw [max_eq_left hle, min_eq_right hle]; omega
  have hnum : (kernel_abs64 (u64_sub rate act) * 10000) %
      18446744073709551616 = (max rate act - min rate act) * 10000 := by
    rw [habs]
    have : (max rate act - min rate act) * 10000 < 18446744073709551616 := by
      have h7 : max rate act - min rate act ≤ 6394967296 := by omega
      omega
    exact Nat.mod_eq_of_lt this
  have hrel : idtxp_relative rate act =
      (max rate act - min rate act) * 10000 / act := by
    unfold idtxp_relative
    rw [hnum]
  exact ⟨hrel, by rw [hrel]⟩

/-- C6 witness: a request 0.049999 percent above an act_freq of 100 MHz is
classified small (relative magnitude 4), matching the claimed formula. -/
theorem set_rate_small_change_classification_witness :
    idtxp_relative 100049999 100000000 =
      (max 100049999 100000000 - min 100049999 100000000) * 10000 /
        100000000 ∧
    idtxp_relative 100049999 100000000 < 5 := by
  have h := set_rate_small_change_classification 100049999 100000000
    (by decide) (by decide) (by decide) (by decide)
  exact ⟨h.1, by rw [h.1]; decide⟩

/-- Helper: a successful idtxp_calc_xo_settings leaves fxtal and req_freq
unchanged and yields a doubler setting whose phase-detector frequency
fxtal times (doubler factor) lies between 80 MHz and 166 MHz. -/
theorem xo_ok_facts (d : ClkIdtxpData)
    (h : (idtxp_calc_xo_settings d).2 = 0) :
    (idtxp_calc_xo_settings d).1.fxtal = d.fxtal ∧
    (idtxp_calc_xo_settings d).1.req_freq = d.req_freq ∧
    80000000 ≤ (idtxp_calc_xo_settings d).1.fxtal *
      (if (idtxp_calc_xo_settings d).1.xo.dblr_dis then 1 else 2) ∧
    (idtxp_calc_xo_settings d).1.fxtal *
      (if (idtxp_calc_xo_settings d).1.xo.dblr_dis then 1 else 2)
      ≤ 166000000 := by
  unfold idtxp_calc_xo_settings at h ⊢
  split_ifs at h ⊢ with hb1 hb2 hb3 <;> simp_all <;> omega

/-- Helper: the initial output-divider guess 1 + FVCO_MIN / req lies between
4 and 429 for an in-range request. -/
theorem divo0_bounds (req : Nat) (h1 : 16000000 ≤ req)
    (h2 : req ≤ 2100000000) :
    4 ≤ 1 + FVCO_MIN / req ∧ 1 + FVCO_MIN / req ≤ 429 := by
  have hq0 : 0 < req := by omega
  have hlow : FVCO_MIN / 2100000000 ≤ FVCO_MIN / req :=
    Nat.div_le_div_left h2 hq0
  have hhigh : FVCO_MIN / req ≤ FVCO_MIN / 16000000 :=
    Nat.div_le_div_left h1 (by norm_num)
  have e1 : FVCO_MIN / 2100000000 = 3 := by norm_num [FVCO_MIN]
  have e2 : FVCO_MIN / 16000000 = 428 := by norm_num [FVCO_MIN]
  omega

/-- Helper: the VCO frequency at the initial guess exceeds FVCO_MIN. -/
theorem divo0_mul_gt (req : Nat) (h1 : 16000000 ≤ req) :
    FVCO_MIN < req * (1 + FVCO_MIN / req) := by
  have hq0 : 0 < req := by omega
  have hdm := Nat.div_add_mod FVCO_MIN req
  have hml := Nat.mod_lt FVCO_MIN hq0
  have hmul : req * (1 + FVCO_MIN / req) = req * (FVCO_MIN / req) + req := by
    ring
  rw [hmul]
  calc FVCO_MIN = req * (FVCO_MIN / req) + FVCO_MIN % req :=
        (Nat.div_add_mod FVCO_MIN req).symm
    _ < req * (FVCO_MIN / req) + req := Nat.add_lt_add_left hml _

/-- Helper: the VCO frequency at the initial guess is at most 8575000000,
hence within FVCO_MAX, for an in-range request. -/
theorem divo0_mul_le (req : Nat) (h1 : 16000000 ≤ req)
    (h2 : req ≤ 2100000000) :
    req * (1 + FVCO_MIN / req) ≤ 8575000000 := by
  have hq0 : 0 < req := by omega
  have hmul : req * (1 + FVCO_MIN / req) = req * (FVCO_MIN / req) + req := by
    ring
  rcases le_or_lt req 1715000000 with hc | hc
  · have hle : req * (FVCO_MIN / req) ≤ FVCO_MIN := by
      rw [Nat.mul_comm]
      exact Nat.div_mul_le_self FVCO_MIN req
    have e : FVCO_MIN = 6860000000 := rfl
    omega
  · have hq3 : FVCO_MIN / req ≤ 3 := by
      have h : FVCO_MIN / req ≤ FVCO_MIN / 1715000001 :=
        Nat.div_le_div_left (by omega) (by norm_num)
      have e : FVCO_MIN / 1715000001 = 3 := by norm_num [FVCO_MIN]
      omega
    have hle4 : req * (1 + FVCO_MIN / req) ≤ req * 4 :=
      Nat.mul_le_mul_left req (by omega)
    have hle5 : req * 4 ≤ 2100000000 * 4 := Nat.mul_le_mul_right 4 h2
    exact le_trans hle4 (le_trans hle5 (by norm_num))

/-- Helper: the divider search loop cannot exhaust its fuel (that is, the C
while loop terminates) as long as DIVN_MIN times the phase-detector
frequency stays below the VCO frequency at the current output divider,
because the skip-without-increment branch is then never taken and every
iteration either exits or increments the output divider. -/
theorem calcDivsLoop_no_hang (req pfd : Nat) (hp : 0 < pfd) :
    ∀ fuel divo, divo ≤ DIVO_MAX → DIVO_MAX < divo + fuel →
      DIVN_MIN * pfd ≤ req * divo →
      calcDivsLoop req pfd divo fuel ≠ LoopOut.hang := by
  intro fuel
  induction fuel with
  | zero =>
    intro divo hle hlt hdn
    have hD : DIVO_MAX = 511 := rfl
    exact absurd hle (by omega)
  | succ fuel ih =>
    intro divo hle hlt hdn
    simp only [calcDivsLoop]
    split_ifs with h1 h2 h3 h4 h5
    · simp
    · -- skip-without-increment branch: impossible with these bounds
      have hge : DIVN_MIN ≤ req * divo / pfd :=
        (Nat.le_div_iff_mul_le hp).mpr hdn
      exact absurd h3 (Nat.not_lt.mpr hge)
    · simp
    · simp
    · -- increment branch
      have hmono : req * divo ≤ req * (divo + 1) :=
        Nat.mul_le_mul_left req (by omega)
      exact ih (divo + 1) (by omega) (by omega) (le_trans hdn hmono)
    · simp

/-- Helper: idtxp_calc_divs returns a result whenever its search loop does
not run out of fuel. -/
theorem idtxp_calc_divs_ne_none (data : ClkIdtxpData)
    (h : calcDivsLoop data.req_freq
        (data.fxtal * (if data.xo.dblr_dis then 1 else 2))
        (1 + FVCO_MIN / data.req_freq) 520 ≠ LoopOut.hang) :
    idtxp_calc_divs data ≠ none := by
  unfold idtxp_calc_divs
  rcases hl : calcDivsLoop data.req_freq
      (data.fxtal * (if data.xo.dblr_dis then 1 else 2))
      (1 + FVCO_MIN / data.req_freq) 520 with _ | _ | s
  · exact absurd hl h
  · simp only [hl]
    simp
  · simp only [hl]
    simp

/-- C1: for every in-range request and every reference frequency in a
supported XO-trim band (with the doubler setting idtxp_calc_xo_settings
assigns for that band), the integer-mode divider search loop of
idtxp_calc_divs terminates, so idtxp_calc_divs returns a result instead of
looping forever at a fixed output divider: with a supported phase-detector
frequency (at most 166 MHz) the integer feedback divider at the initial
guess is already at least DIVN_MIN, so the skip-without-increment branch is
never reached. -/
theorem calc_divs_search_terminates_on_supported_inputs (req fxtal : Nat)
    (h1 : IDTXP_MIN_FREQ ≤ req) (h2 : req ≤ IDTXP_MAX_FREQ)
    (hxo : (idtxp_calc_xo_settings (probe_base fxtal req)).2 = 0) :
    idtxp_calc_divs (probe_data fxtal req) ≠ none := by
  have hmin : IDTXP_MIN_FREQ = 16000000 := rfl
  have hmax : IDTXP_MAX_FREQ = 2100000000 := rfl
  rw [hmin] at h1
  rw [hmax] at h2
  obtain ⟨hfx, hrq, hp1, hp2⟩ := xo_ok_facts (probe_base fxtal req) hxo
  have hbfx : (probe_base fxtal req).fxtal = fxtal := rfl
  have hbrq : (probe_base fxtal req).req_freq = req := rfl
  set D := probe_data fxtal req with hD
  have hDdef : D = (idtxp_calc_xo_settings (probe_base fxtal req)).1 := rfl
  rw [← hDdef] at hfx hrq hp1 hp2
  rw [hbfx] at hfx
  rw [hbrq] at hrq
  set pfd := D.fxtal * (if D.xo.dblr_dis then 1 else 2) with hpfd
  have hp0 : 0 < pfd := by omega
  have hdn : DIVN_MIN * pfd ≤ req * (1 + FVCO_MIN / req) := by
    have hg := divo0_mul_gt req h1
    have hstep : DIVN_MIN * pfd ≤ 41 * 166000000 := by
      have : DIVN_MIN = 41 := rfl
      rw [this]
      exact Nat.mul_le_mul_left 41 hp2
    have : (41 : Nat) * 166000000 ≤ FVCO_MIN := by norm_num [FVCO_MIN]
    omega
  have hb := divo0_bounds req h1 h2
  have hnh := calcDivsLoop_no_hang req pfd hp0 520 (1 + FVCO_MIN / req)
    (by have : DIVO_MAX = 511 := rfl; omega)
    (by have : DIVO_MAX = 511 := rfl; omega) hdn
  apply idtxp_calc_divs_ne_none
  rw [hrq, ← hpfd]
  exact hnh

/-- C1 witness: at a 156.25 MHz request from a 49.152 MHz crystal (first
band, doubler enabled) the divider computation terminates. -/
theorem calc_divs_search_terminates_witness :
    idtxp_calc_divs (probe_data 49152000 156250000) ≠ none :=
  calc_divs_search_terminates_on_supported_inputs 156250000 49152000
    (by decide) (by decide) (by decide)

/-- Helper: when the divider search loop reports an exact integer solution,
the solution divider is at least the starting divider, below DIVO_MAX, its
VCO frequency is within FVCO_MAX, the integer feedback divider passed both
DIVN bound checks, and the division is exact. -/
theorem calcDivsLoop_intSol_facts (req pfd : Nat) :
    ∀ fuel divo s, calcDivsLoop req pfd divo fuel = LoopOut.intSol s →
      divo ≤ s ∧ s < DIVO_MAX ∧ req * s ≤ FVCO_MAX ∧
      DIVN_MIN ≤ req * s / pfd ∧ req * s / pfd ≤ DIVN_MAX ∧
      req * s % pfd = 0 := by
  intro fuel
  induction fuel with
  | zero =>
    intro divo s h
    simp [calcDivsLoop] at h
  | succ fuel ih =>
    intro divo s h
    simp only [calcDivsLoop] at h
    split_ifs at h with h1 h2 h3 h4 h5
    · -- skip-without-increment branch recursion
      obtain ⟨hd1, hd2, hd3, hd4, hd5, hd6⟩ := ih divo s h
      exact ⟨hd1, hd2, hd3, hd4, hd5, hd6⟩
    · -- exact-solution exit
      simp only [LoopOut.intSol.injEq] at h
      subst h
      refine ⟨le_refl _, h1, by omega, ?_, ?_, h5⟩
      · exact Nat.le_of_not_lt h3
      · exact Nat.le_of_not_lt h4
    · -- increment branch recursion
      obtain ⟨hd1, hd2, hd3, hd4, hd5, hd6⟩ := ih (divo + 1) s h
      exact ⟨by omega, hd2, hd3, hd4, hd5, hd6⟩

/-- Helper: projections of update_divis_regs on the divider fields it does
not touch. -/
theorem update_divis_regs_proj (x : ClkIdtxpData) :
    (update_divis_regs x).divo = x.divo ∧
    (update_divis_regs x).divnint = x.divnint ∧
    (update_divis_regs x).divnfrac = x.divnfrac ∧
    (update_divis_regs x).fvco = x.fvco :=
  ⟨rfl, rfl, rfl, rfl⟩

/-- C2 (amended): for every in-range request and supported reference band,
every divider set produced by idtxp_calc_divs satisfies the section-3
invariants on output divider, feedback integer and VCO frequency, with
vco = requested times output divider exactly; the fractional feedback
divider, however, is only bounded by feedback_frac LE 2 pow 24: the rounding
step can produce the value 2 pow 24 itself (see the counterexample), so the
claimed strict bound feedback_frac LT 2 pow 24 is weakened to allow
equality. -/
theorem calc_divs_meets_divider_invariants (req fxtal : Nat)
    (h1 : IDTXP_MIN_FREQ ≤ req) (h2 : req ≤ IDTXP_MAX_FREQ)
    (hxo : (idtxp_calc_xo_settings (probe_base fxtal req)).2 = 0)
    (d : ClkIdtxpData)
    (hd : idtxp_calc_divs (probe_data fxtal req) = some d) :
    DIVO_MIN ≤ d.divo ∧ d.divo ≤ DIVO_MAX ∧
    DIVN_MIN ≤ d.divnint ∧ d.divnint ≤ DIVN_MAX ∧
    FVCO_MIN ≤ d.fvco ∧ d.fvco ≤ FVCO_MAX ∧
    d.fvco = req * d.divo ∧
    d.divnfrac ≤ 16777216 := by
  have hmin : IDTXP_MIN_FREQ = 16000000 := rfl
  have hmax : IDTXP_MAX_FREQ = 2100000000 := rfl
  rw [hmin] at h1
  rw [hmax] at h2
  obtain ⟨hfx, hrq, hp1, hp2⟩ := xo_ok_facts (probe_base fxtal req) hxo
  have hbfx : (probe_base fxtal req).fxtal = fxtal := rfl
  have hbrq : (probe_base fxtal req).req_freq = req := rfl
  set D := probe_data fxtal req with hD
  have hDdef : D = (idtxp_calc_xo_settings (probe_base fxtal req)).1 := rfl
  rw [← hDdef] at hfx hrq hp1 hp2
  rw [hbfx] at hfx
  rw [hbrq] at hrq
  simp only [idtxp_calc_divs] at hd
  rw [hrq] at hd
  set P := D.fxtal * (if D.xo.dblr_dis then 1 else 2) with hP
  have hP0 : 0 < P := by omega
  have hb := divo0_bounds req h1 h2
  have hgt := divo0_mul_gt req h1
  have hle := divo0_mul_le req h1 h2
  have hdn : DIVN_MIN * P ≤ req * (1 + FVCO_MIN / req) := by
    have hstep : DIVN_MIN * P ≤ 41 * 166000000 := by
      have e : DIVN_MIN = 41 := rfl
      rw [e]
      exact Nat.mul_le_mul_left 41 hp2
    have e2 : (41 : Nat) * 166000000 ≤ FVCO_MIN := by norm_num [FVCO_MIN]
    omega
  have eDIVOMIN : DIVO_MIN = 4 := rfl
  have eDIVOMAX : DIVO_MAX = 511 := rfl
  have eDIVNMIN : DIVN_MIN = 41 := rfl
  have eDIVNMAX : DIVN_MAX = 216 := rfl
  have eFVCOMIN : FVCO_MIN = 6860000000 := rfl
  have eFVCOMAX : FVCO_MAX = 8650000000 := rfl
  rcases hl : calcDivsLoop req P (1 + FVCO_MIN / req) 520 with _ | _ | s
  · rw [hl] at hd
    simp at hd
  · -- fractional mode at the initial guess
    simp only [hl, Option.some.injEq] at hd
    subst hd
    have hnint : DIVN_MIN ≤ req * (1 + FVCO_MIN / req) / P :=
      (Nat.le_div_iff_mul_le hP0).mpr hdn
    have hnint2 : req * (1 + FVCO_MIN / req) / P ≤ 107 := by
      have ha : req * (1 + FVCO_MIN / req) / P ≤
          req * (1 + FVCO_MIN / req) / 80000000 :=
        Nat.div_le_div_left hp1 (by norm_num)
      have hbq : req * (1 + FVCO_MIN / req) / 80000000 ≤
          8575000000 / 80000000 :=
        Nat.div_le_div_right hle
      have : (8575000000 : Nat) / 80000000 = 107 := by norm_num
      omega
    have hrem : req * (1 + FVCO_MIN / req) % P < P := Nat.mod_lt _ hP0
    have hfr : (req * (1 + FVCO_MIN / req) % P) <<< 24 / P < 16777216 := by
      rw [Nat.shiftLeft_eq]
      rw [Nat.div_lt_iff_lt_mul hP0]
      have e24 : (2 : Nat) ^ 24 = 16777216 := by norm_num
      rw [e24]
      calc req * (1 + FVCO_MIN / req) % P * 16777216 < P * 16777216 :=
            (Nat.mul_lt_mul_right (by norm_num)).mpr hrem
        _ = 16777216 * P := Nat.mul_comm _ _
    refine ⟨?_, ?_, ?_, ?_, ?_, ?_, ?_, ?_⟩ <;>
      simp only [update_divis_regs] <;> (try split_ifs) <;> omega
  · -- exact integer solution found by the search
    simp only [hl, Option.some.injEq] at hd
    subst hd
    obtain ⟨hs1, hs2, hs3, hs4, hs5, hs6⟩ :=
      calcDivsLoop_intSol_facts req P 520 (1 + FVCO_MIN / req) s hl
    have hmono : req * (1 + FVCO_MIN / req) ≤ req * s :=
      Nat.mul_le_mul_left req hs1
    refine ⟨?_, ?_, ?_, ?_, ?_, ?_, ?_, ?_⟩ <;>
      simp only [update_divis_regs] <;> omega

/-- C2 counterexample: the claim fixes feedback_frac strictly below 2 pow
24, but at the in-range request 152173913 Hz from the supported 100 MHz
reference (second band, doubler disabled, pfd 100 MHz) the fractional
rounding step of idtxp_calc_divs produces feedback_frac equal to 16777216,
which is exactly 2 pow 24. -/
theorem calc_divs_frac_overflow_counterexample :
    IDTXP_MIN_FREQ ≤ 152173913 ∧ (152173913 : Nat) ≤ IDTXP_MAX_FREQ ∧
    (idtxp_calc_xo_settings (probe_base 100000000 152173913)).2 = 0 ∧
    (idtxp_calc_divs (probe_data 100000000 152173913)).map
      (fun d => d.divnfrac) = some 16777216 ∧
    ¬ ((16777216 : Nat) < 2 ^ 24) := by
  refine ⟨by decide, by decide, by decide, by rfl, by norm_num⟩

/-- C2 witness: at a 156.25 MHz request from a 49.152 MHz crystal the
divider computation returns a set, and the amended invariants hold of it. -/
theorem calc_divs_meets_divider_invariants_witness :
    ∃ d, idtxp_calc_divs (probe_data 49152000 156250000) = some d ∧
      (DIVO_MIN ≤ d.divo ∧ d.divo ≤ DIVO_MAX ∧
       DIVN_MIN ≤ d.divnint ∧ d.divnint ≤ DIVN_MAX ∧
       FVCO_MIN ≤ d.fvco ∧ d.fvco ≤ FVCO_MAX ∧
       d.fvco = 156250000 * d.divo ∧
       d.divnfrac ≤ 16777216) := by
  rcases h : idtxp_calc_divs (probe_data 49152000 156250000) with _ | d
  · exact absurd h (by decide)
  · exact ⟨d, rfl, calc_divs_meets_divider_invariants 156250000 49152000
      (by decide) (by decide) (by decide) d h⟩

set_option maxRecDepth 4000 in
/-- Helper: for every nonzero byte mask, bit_to_shift returns the index of
the lowest set bit: that bit is set and all bits below it are clear.
Checked exhaustively over the 255 nonzero byte masks. -/
theorem bit_to_shift_isolates :
    ∀ m, m < 256 → 0 < m → (Nat.testBit m (bit_to_shift m) = true ∧
      ∀ i, i < bit_to_shift m → Nat.testBit m i = false) := by decide

/-- C9: the bitfield codec round trip.  For every byte b, nonzero byte mask
m and value v whose left-shift to the lowest set bit of m stays inside m
(the formalization of v fitting in the bit width of the mask field),
set_to_reg preserves every bit of b outside m, stores exactly v <<<
bit_to_shift m in the bits inside m, and get_from_reg recovers v; moreover
bit_to_shift m is the index of the lowest set bit of m, so the stored value
is aligned to that bit. -/
theorem set_get_reg_bitfield_codec (b m v : Nat)
    (hb : b < 256) (hm : m < 256) (hm0 : 0 < m)
    (hfit : (v <<< bit_to_shift m) &&& m = v <<< bit_to_shift m) :
    (set_to_reg b v m &&& (255 ^^^ m) = b &&& (255 ^^^ m)) ∧
    (set_to_reg b v m &&& m = v <<< bit_to_shift m) ∧
    (get_from_reg (set_to_reg b v m) m = v) ∧
    Nat.testBit m (bit_to_shift m) = true ∧
    (∀ i, i < bit_to_shift m → Nat.testBit m i = false) := by
  set s := bit_to_shift m with hs
  have hL : v <<< s ≤ m :=
    calc v <<< s = (v <<< s) &&& m := hfit.symm
      _ ≤ m := Nat.and_le_right
  have hLlt : v <<< s < 256 := lt_of_le_of_lt hL hm
  have hm32 : m % 4294967296 = m := Nat.mod_eq_of_lt (by omega)
  have hL32 : (v <<< s) % 4294967296 = v <<< s := Nat.mod_eq_of_lt (by omega)
  have hreg : set_to_reg b v m = (b &&& (U32_ONES ^^^ m)) ||| (v <<< s) := by
    unfold set_to_reg
    rw [← hs, hm32, hL32]
    apply Nat.mod_eq_of_lt
    have h1 : b &&& (U32_ONES ^^^ m) < 256 := lt_of_le_of_lt Nat.and_le_left hb
    have h2 := hLlt
    have h8 : (256 : Nat) = 2 ^ 8 := by norm_num
    rw [h8] at h1 h2 ⊢
    exact Nat.or_lt_two_pow h1 h2
  have hTfit : ∀ i, ((v <<< s).testBit i && m.testBit i)
      = (v <<< s).testBit i := by
    intro i
    have hca := congrArg (fun x => Nat.testBit x i) hfit
    simpa using hca
  have hU : U32_ONES = 2 ^ 32 - 1 := rfl
  have h255 : (255 : Nat) = 2 ^ 8 - 1 := by norm_num
  have hbig : ∀ i, 8 ≤ i → b.testBit i = false ∧ m.testBit i = false ∧
      (v <<< s).testBit i = false := by
    intro i hi
    have hpow : (256 : Nat) ≤ 2 ^ i :=
      calc (256 : Nat) = 2 ^ 8 := by norm_num
        _ ≤ 2 ^ i := Nat.pow_le_pow_right (by norm_num) hi
    exact ⟨Nat.testBit_lt_two_pow (by omega),
      Nat.testBit_lt_two_pow (by omega),
      Nat.testBit_lt_two_pow (by omega)⟩
  have c1 : set_to_reg b v m &&& (255 ^^^ m) = b &&& (255 ^^^ m) := by
    rw [hreg, hU, h255]
    apply Nat.eq_of_testBit_eq
    intro i
    simp only [Nat.testBit_and, Nat.testBit_or, Nat.testBit_xor,
      Nat.testBit_two_pow_sub_one]
    rcases Nat.lt_or_ge i 8 with hi | hi
    · have hi32 : i < 32 := by omega
      have hT := hTfit i
      cases hm_i : m.testBit i <;> cases hb_i : b.testBit i <;>
        cases hL_i : (v <<< s).testBit i <;> simp_all
    · obtain ⟨e1, e2, e3⟩ := hbig i hi
      simp [e1, e2, e3]
  have c2 : set_to_reg b v m &&& m = v <<< s := by
    rw [hreg, hU]
    apply Nat.eq_of_testBit_eq
    intro i
    simp only [Nat.testBit_and, Nat.testBit_or, Nat.testBit_xor,
      Nat.testBit_two_pow_sub_one]
    rcases Nat.lt_or_ge i 8 with hi | hi
    · have hi32 : i < 32 := by omega
      have hT := hTfit i
      cases hm_i : m.testBit i <;> cases hb_i : b.testBit i <;>
        cases hL_i : (v <<< s).testBit i <;> simp_all
    · obtain ⟨e1, e2, e3⟩ := hbig i hi
      simp [e1, e2, e3]
  have hvle : v ≤ v <<< s := by
    rw [Nat.shiftLeft_eq]
    calc v = v * 1 := (Nat.mul_one v).symm
      _ ≤ v * 2 ^ s := Nat.mul_le_mul_left v (Nat.pos_pow_of_pos s (by norm_num))
  have c3 : get_from_reg (set_to_reg b v m) m = v := by
    unfold get_from_reg
    rw [← hs, hm32, c2]
    rw [Nat.shiftLeft_eq, Nat.shiftRight_eq_div_pow]
    rw [Nat.mul_div_cancel _ (Nat.pos_pow_of_pos s (by norm_num))]
    have hv256 : v < 256 := by
      have := hLlt
      omega
    exact Nat.mod_eq_of_lt hv256
  obtain ⟨c4a, c4b⟩ := bit_to_shift_isolates m hm hm0
  exact ⟨c1, c2, c3, c4a, c4b⟩

/-- C9 witness: packing the 2-bit value 3 into the mask 0x30 of the byte
0xA5 preserves the bits outside the mask, stores 3 shifted to bit 4, and
unpacking recovers 3. -/
theorem set_get_reg_bitfield_codec_witness :
    set_to_reg 0xA5 3 0x30 &&& (255 ^^^ 0x30) = 0xA5 &&& (255 ^^^ 0x30) ∧
    set_to_reg 0xA5 3 0x30 &&& 0x30 = 3 <<< bit_to_shift 0x30 ∧
    get_from_reg (set_to_reg 0xA5 3 0x30) 0x30 = 3 := by
  have h := set_get_reg_bitfield_codec 0xA5 0x30 3 (by decide) (by decide)
    (by decide) (by decide)
  exact ⟨h.1, h.2.1, h.2.2.1⟩

end ClkIdtxp
